import Mathlib

set_option autoImplicit false

namespace Nanobot

/-!
Shallow embedding of the nanobot-honcho agent runtime (plastic-labs/nanobot-honcho),
covering the parts of the code that the verified claims are about:

* `nanobot/agent/core.py` — `run_loop`, the shared agent iteration loop;
* `nanobot/agent/loop.py` — `AgentLoop` (`_run_agent_loop`, `run`,
  `_process_message`, `_process_system_message`, `_consolidate_memory`);
* `nanobot/agent/context.py` — `ContextBuilder` (system prompt and message
  assembly) and `format_tool_calls`;
* `nanobot/agent/subagent.py` — `SubagentManager` (`_run_subagent`,
  `_announce_result`, `_build_subagent_prompt`).

Collaborator classes whose modules are not part of the source tree
(`SpendBudget`, `ToolRegistry`, `Session`/`SessionManager`, `MemoryStore`,
`SkillsLoader`, the message bus event types) are modelled from the spec, each
marked `Modelled from the spec:` in its doc comment.

Conventions: Python `None`-able strings become `Option String`; machine-level
effects (clock, platform, filesystem reads) become explicit inputs; the model
backend becomes a script of per-call outcomes consumed in order; a raised
Python exception becomes an `error` field carrying the propagated message.
The Honcho integration is the optional external memory service (out of scope
per spec §1); the embedding models the default configuration in which it is
disabled (`honcho_active` is false), where the spec requires behavior to
degrade to local-only with no change to the state machine.
-/

/-! ## Tool calls and chat messages -/

/-- A tool call as delivered by the model backend (`providers.base.ToolCall`):
an identifier, a tool name, and an argument mapping. The agent code only ever
serializes the argument mapping and hands it to the registry, so it is
abstracted as its serialized form. -/
structure ToolCall where
  id : String
  name : String
  arguments : String
deriving Repr, DecidableEq

/-- One entry of the `tool_calls` list attached to an assistant message, in
the dict shape built by `context.format_tool_calls` and inlined in
`loop._run_agent_loop` (fields `id`, `type`, `function.name`,
`function.arguments`). -/
structure ToolCallDict where
  id : String
  type : String
  functionName : String
  functionArguments : String
deriving Repr, DecidableEq

/-- `context.format_tool_calls`: convert `ToolCall` objects to the dict
format expected by LLM APIs (`type` is always `"function"`, arguments are the
JSON dump of the mapping). -/
def format_tool_calls (tcs : List ToolCall) : List ToolCallDict :=
  tcs.map fun tc =>
    { id := tc.id, type := "function", functionName := tc.name,
      functionArguments := tc.arguments }

/-! ### Python string primitives

The Python string methods the agent code uses (`strip`, `lower`, `upper`,
slicing, `split(sep, 1)`, `rsplit(sep, 1)`, `startswith`) are embedded as
structurally recursive functions over the character list, so that every
definition in this file is computable by evaluation. -/

/-- Whether `pat` is a leading segment of `cs` (Python `startswith`). -/
def charsStartWith : List Char → List Char → Bool
  | [], _ => true
  | _ :: _, [] => false
  | p :: ps, c :: cs => p == c && charsStartWith ps cs

/-- Split at the first occurrence of the character `sep` (Python
`split(sep, 1)` when it finds a separator): the parts before and after. -/
def splitFirstChar (sep : Char) : List Char → Option (List Char × List Char)
  | [] => none
  | c :: cs =>
    if c == sep then some ([], cs)
    else
      match splitFirstChar sep cs with
      | some pr => some (c :: pr.1, pr.2)
      | none => none

/-- Split at the last occurrence of the segment `pat` (Python
`rsplit(pat, 1)` when it finds one): the parts before and after. -/
def splitLast (pat : List Char) : List Char → Option (List Char × List Char)
  | [] => none
  | c :: cs =>
    match splitLast pat cs with
    | some pr => some (c :: pr.1, pr.2)
    | none =>
      if charsStartWith pat (c :: cs) then
        some ([], (c :: cs).drop pat.length)
      else none

/-- Python `str.strip()`: drop whitespace from both ends. -/
def pyStrip (s : String) : String :=
  let cs := s.data.dropWhile Char.isWhitespace
  ⟨(cs.reverse.dropWhile Char.isWhitespace).reverse⟩

/-- Python `str.lower()`. -/
def pyLower (s : String) : String :=
  ⟨s.data.map Char.toLower⟩

/-- Python `str.upper()`. -/
def pyUpper (s : String) : String :=
  ⟨s.data.map Char.toUpper⟩

/-- Python `s[:n]`. -/
def strTake (s : String) (n : Nat) : String :=
  ⟨s.data.take n⟩

/-- Content of one chat message: plain text, or the image-items-plus-text
structure built by `ContextBuilder._build_user_content` when media
attachments survive the image filter. -/
inductive MsgContent where
  | text (s : String)
  | imagesWithText (imageUrls : List String) (s : String)
deriving Repr, DecidableEq

/-- One message of the ephemeral per-call message list handed to the model
backend (a Python dict in the source; the optional keys become `Option`
fields / a default-empty tool-call list). -/
structure ChatMessage where
  role : String
  content : MsgContent
  toolCalls : List ToolCallDict := []
  toolCallId : Option String := none
  name : Option String := none
deriving Repr, DecidableEq

/-- Token usage reported by the model backend (`response.usage`). -/
structure Usage where
  promptTokens : Nat
  completionTokens : Nat
deriving Repr, DecidableEq

/-- A response of the model backend as consumed by the agent code: optional
text content, zero or more tool calls, optional reasoning text, optional
usage, and a reported cost (modelled in integral currency micro-units). -/
structure ModelResponse where
  content : Option String := none
  toolCalls : List ToolCall := []
  reasoningContent : Option String := none
  usage : Option Usage := none
  cost : Nat := 0
deriving Repr, DecidableEq

/-- `response.has_tool_calls`: whether the response carries at least one tool
call. -/
def ModelResponse.has_tool_calls (r : ModelResponse) : Bool :=
  !r.toolCalls.isEmpty

/-- The model backend over one run, as a script of per-call outcomes consumed
in order: `Except.error e` is a transport/provider exception raised by
`provider.chat`, `Except.ok r` a returned response. An exhausted script also
counts as a raised provider failure. -/
abbrev ProviderScript : Type := List (Except String ModelResponse)

/-! ## Spend budget (modelled from the spec) -/

/-- Modelled from the spec: `SpendBudget` (`nanobot/agent/budget.py` is not
under `src/`; only its callers are). Spec §3/§4.4: a ceiling (currency units,
optional), a running total with input/output token fields, and a per-source
breakdown keyed by a source label. -/
structure SpendBudget where
  ceiling : Option Nat := none
  totalCost : Nat := 0
  inputTokens : Nat := 0
  outputTokens : Nat := 0
  bySource : List (String × Nat) := []
deriving Repr, DecidableEq

/-- Modelled from the spec: `is_exhausted` reports whether cumulative recorded
spend has reached the ceiling (no ceiling means never exhausted). -/
def SpendBudget.is_exhausted (b : SpendBudget) : Bool :=
  match b.ceiling with
  | none => false
  | some c => decide (c ≤ b.totalCost)

/-- Add `c` to the entry for source `src` of a per-source breakdown, creating
the entry if absent. -/
def addToSource (src : String) (c : Nat) : List (String × Nat) → List (String × Nat)
  | [] => [(src, c)]
  | (s, v) :: rest =>
      if s = src then (s, v + c) :: rest else (s, v) :: addToSource src c rest

/-- Spend recorded for a given source label in a breakdown (0 if absent). -/
def sourceSpend (src : String) : List (String × Nat) → Nat
  | [] => 0
  | (s, v) :: rest => if s = src then v else sourceSpend src rest

/-- Modelled from the spec: `add_cost(cost, input_tokens, output_tokens,
source)` adds the call usage to the running totals, tagged with the
caller-supplied source label in the per-source breakdown. -/
def SpendBudget.add_cost (b : SpendBudget) (cost inTok outTok : Nat)
    (source : String) : SpendBudget :=
  { b with
    totalCost := b.totalCost + cost,
    inputTokens := b.inputTokens + inTok,
    outputTokens := b.outputTokens + outTok,
    bySource := addToSource source cost b.bySource }

/-! ## Tool registry (modelled from the spec) -/

/-- Modelled from the spec: `ToolRegistry`
(`nanobot/agent/tools/registry.py` is not under `src/`). Spec §4.3:
`execute(name, arguments)` looks up the handler, invokes it, and returns its
text result, catching and stringifying any handler-level exception into an
error string rather than propagating; an unknown name yields a fixed error
string. It therefore appears here as a total function. Tools may mutate
workspace state (spec §4.2 step 5), modelled by threading a state of type
`σ`. -/
structure ToolRegistry (σ : Type) where
  execute : String → String → σ → String × σ

/-! ## core.run_loop -/

/-- Observable outcome of `core.run_loop`: the `(final_content,
budget_exhausted)` return value, plus the externally observable state at exit
— the caller-owned message list (mutated in place by the source), the shared
budget object, the workspace state, and, for specification purposes, the log
of message lists passed to each model call in order. `error = some e` means
the provider raised and the exception propagated out of the loop (spec §4.2:
a model-call failure is not swallowed at this layer). -/
structure LoopResult (σ : Type) where
  error : Option String := none
  finalContent : Option String := none
  budgetExhausted : Bool := false
  messages : List ChatMessage
  budget : Option SpendBudget
  ws : σ
  callLog : List (List ChatMessage)
deriving Repr, DecidableEq

/-- The assistant turn appended by `core.run_loop` for a response carrying
tool calls (role `assistant`, `content or ""`, the formatted raw tool-call
list). -/
def assistantToolMsg (r : ModelResponse) : ChatMessage :=
  { role := "assistant", content := .text (r.content.getD ""),
    toolCalls := format_tool_calls r.toolCalls }

/-- The tool-execution block of `core.run_loop` (lines 105–116): execute each
requested call sequentially in request order, threading the workspace state
from one call to the next, and build one tool-result turn per call (role
`tool`, `tool_call_id` and `name` copied from the originating call, content
the execution result). -/
def execToolCalls {σ : Type} (tools : ToolRegistry σ) :
    List ToolCall → σ → List ChatMessage × σ
  | [], ws => ([], ws)
  | tc :: rest, ws =>
    let r := tools.execute tc.name tc.arguments ws
    let after := execToolCalls tools rest r.2
    ({ role := "tool", content := .text r.1, toolCallId := some tc.id,
       name := some tc.name } :: after.1, after.2)

/-- `core.run_loop` (core.py lines 43–122). Per iteration: check the attached
budget before the model call and stop reporting exhaustion if it is
exhausted; invoke the model; add the call cost/usage to the budget under
`cost_source`; then either append the assistant tool-call turn followed by
one tool-result turn per call and iterate, or finish with the response text.
A provider exception propagates (`error`), leaving the budget uncharged for
that call. Reaching `max_iterations` returns no final content. -/
def run_loop {σ : Type} (tools : ToolRegistry σ) (script : ProviderScript)
    (cost_source : String) (max_iterations : Nat) (messages : List ChatMessage)
    (budget : Option SpendBudget) (ws : σ)
    (callLog : List (List ChatMessage)) : LoopResult σ :=
  match max_iterations with
  | 0 =>
    { messages := messages, budget := budget, ws := ws, callLog := callLog }
  | n + 1 =>
    if (budget.map SpendBudget.is_exhausted).getD false then
      { budgetExhausted := true, messages := messages, budget := budget,
        ws := ws, callLog := callLog }
    else
      match script with
      | [] =>
        { error := some "provider unavailable", messages := messages,
          budget := budget, ws := ws, callLog := callLog ++ [messages] }
      | .error e :: _ =>
        { error := some e, messages := messages, budget := budget, ws := ws,
          callLog := callLog ++ [messages] }
      | .ok r :: rest =>
        let inTok := match r.usage with | some u => u.promptTokens | none => 0
        let outTok := match r.usage with | some u => u.completionTokens | none => 0
        let budget1 := budget.map fun b => b.add_cost r.cost inTok outTok cost_source
        if r.has_tool_calls then
          let exec := execToolCalls tools r.toolCalls ws
          run_loop tools rest cost_source n
            (messages ++ assistantToolMsg r :: exec.1) budget1 exec.2
            (callLog ++ [messages])
        else
          { finalContent := r.content, messages := messages, budget := budget1,
            ws := ws, callLog := callLog ++ [messages] }

/-! ## ContextBuilder (context.py) -/

/-- The Honcho user-context mapping passed to `build_system_prompt`
(`{representation?, card?}`); a missing or Python-falsy key is modelled as
the empty string, a falsy (empty) dict as `none` at the use sites. -/
structure UserContext where
  representation : String := ""
  card : String := ""
deriving Repr, DecidableEq

/-- The ambient inputs `ContextBuilder` reads while assembling a prompt:
workspace files, the memory and skills stores, the clock and the platform.
`bootstrapFile` models `Path.read_text` on the workspace bootstrap documents
(`none` = file absent); `memoryContext`, `alwaysSkills`,
`alwaysSkillsContent` and `skillsSummary` are modelled from the spec
(`MemoryStore` / `SkillsLoader` are not under `src/`): the optional long-term
memory text, the always-active skill list and their inlined bodies, and the
one-line-summary listing of the other skills, each `""` when absent.
`imageData` models the `mimetypes` + filesystem check of
`_build_user_content` (`some dataUrl` when the path is a readable local image
file). `now` is the formatted `datetime.now()` reading, `runtime` the
platform description, both taken at prompt-build time. -/
structure PromptEnv where
  bootstrapFile : String → Option String
  memoryContext : String
  alwaysSkills : List String
  alwaysSkillsContent : String
  skillsSummary : String
  honchoEnabled : Bool
  now : String
  runtime : String
  workspacePath : String
  imageData : String → Option String

/-- `ContextBuilder.BOOTSTRAP_FILES`. -/
def BOOTSTRAP_FILES : List String :=
  ["AGENTS.md", "SOUL.md", "USER.md", "TOOLS.md", "IDENTITY.md"]

/-- `ContextBuilder._load_bootstrap_files`: concatenate the workspace
bootstrap documents that exist, each under a `## filename` header. -/
def load_bootstrap_files (env : PromptEnv) : String :=
  String.intercalate "\n\n"
    (BOOTSTRAP_FILES.filterMap fun filename =>
      (env.bootstrapFile filename).map fun content =>
        "## " ++ filename ++ "\n\n" ++ content)

/-- The memory section of `_get_identity`: Honcho-managed memory when the
Honcho session manager is present, otherwise the file-based workspace memory
section. -/
def memorySection (env : PromptEnv) : String :=
  if env.honchoEnabled then
    String.intercalate "\n"
      [ "## Memory",
        "Honcho manages your memory and learns about users automatically from conversations.",
        "Conversation history is persistent across sessions -- no manual storage needed.",
        "Use `/clear` to reset the conversation and start fresh." ]
  else
    String.intercalate "\n"
      [ "## Workspace",
        "Your workspace is at: " ++ env.workspacePath,
        "- Memory files: " ++ env.workspacePath ++ "/memory/MEMORY.md",
        "- Daily notes: " ++ env.workspacePath ++ "/memory/YYYY-MM-DD.md",
        "- Custom skills: " ++ env.workspacePath ++ "/skills/\x7bskill-name\x7d/SKILL.md",
        "",
        "When remembering something important, write to " ++ env.workspacePath ++ "/memory/MEMORY.md" ]

/-- `ContextBuilder._get_identity` (context.py lines 125–178): the core
identity block, including the current-time reading, the runtime description
and the memory section. -/
def getIdentity (env : PromptEnv) : String :=
  String.intercalate "\n"
    [ "# nanobot",
      "",
      "You are nanobot, a personal AI companion. Your primary role is to have natural conversations with your user. Conversation is your default mode.",
      "",
      "You have access to tools (file operations, shell, web search, messaging, subagents), but most messages just need a thoughtful reply. Use this decision framework:",
      "",
      "**Respond with text** (most of the time):",
      "- Greetings, small talk, casual conversation",
      "- Questions you can answer from knowledge or conversation context",
      "- Opinions, advice, brainstorming, emotional support",
      "- Follow-ups to previous messages",
      "- Acknowledging or thanking",
      "",
      "**Use a tool only when the user\x27s request requires it:**",
      "- \"What\x27s the weather?\" -> web search",
      "- \"Create a file called X\" -> file operation",
      "- \"Run this command\" -> shell execution",
      "- \"Remind me at 3pm\" -> cron",
      "- A question specifically about something a tool can look up that you don\x27t know",
      "",
      "When in doubt, respond with text. A conversational reply is almost always better than a failed or unnecessary tool call.",
      "",
      "Do NOT use the `message` tool for normal conversation -- just respond with text directly.",
      "",
      "## Current Time",
      env.now,
      "",
      "## Runtime",
      env.runtime,
      "",
      memorySection env ]

/-- The `# Skills` progressive-loading section header text of
`build_system_prompt`. -/
def skillsSectionText (summary : String) : String :=
  String.intercalate "\n"
    [ "# Skills",
      "",
      "The following skills are available. Load a skill by reading its SKILL.md file, if relevant to what the user is asking.",
      "Skills with available=\"false\" need dependencies installed first.",
      "",
      summary ]

/-- The `# User Context (from Honcho)` section of `build_system_prompt`,
empty list when the mapping is falsy or carries no truthy field. -/
def userContextParts (user_context : Option UserContext) : List String :=
  match user_context with
  | none => []
  | some uc =>
    let cparts :=
      (if uc.representation ≠ "" then
        ["## User Representation\n" ++ uc.representation] else []) ++
      (if uc.card ≠ "" then ["## User Card\n" ++ uc.card] else [])
    if cparts.isEmpty then [] else
      ["# User Context (from Honcho)\n\n" ++ String.intercalate "\n\n" cparts]

/-- `ContextBuilder.build_system_prompt` (context.py lines 61–123): identity
block, bootstrap documents when present, file-based memory context when
Honcho is disabled, optional Honcho user context, inlined always-active
skills, and the one-line skills summary, joined with `\n\n---\n\n`.
(The `skill_names` parameter is accepted and, as in the source, unused.) -/
def build_system_prompt (env : PromptEnv) (skill_names : Option (List String))
    (user_context : Option UserContext) : String :=
  let bootstrap := load_bootstrap_files env
  let parts := [getIdentity env]
    ++ (if bootstrap ≠ "" then [bootstrap] else [])
    ++ (if env.honchoEnabled = false ∧ env.memoryContext ≠ "" then
          ["# Memory\n\n" ++ env.memoryContext] else [])
    ++ userContextParts user_context
    ++ (if env.alwaysSkills ≠ [] ∧ env.alwaysSkillsContent ≠ "" then
          ["# Active Skills\n\n" ++ env.alwaysSkillsContent] else [])
    ++ (if env.skillsSummary ≠ "" then [skillsSectionText env.skillsSummary] else [])
  String.intercalate "\n\n---\n\n" parts

/-- Python truthiness of an optional string (None and "" are falsy). -/
def pyTruthy : Option String → Bool
  | none => false
  | some s => s ≠ ""

/-- `ContextBuilder._build_user_content`: plain text without media; with
media, the surviving image attachments (local image files only, others
silently dropped) as inline items before the text, or plain text when none
survive. -/
def build_user_content (env : PromptEnv) (text : String) (media : List String) :
    MsgContent :=
  if media.isEmpty then .text text
  else
    let images := media.filterMap env.imageData
    if images.isEmpty then .text text else .imagesWithText images text

/-- `ContextBuilder.build_messages` (context.py lines 192–232): one system
message (the system prompt, plus the current-session suffix when channel and
chat id are truthy), then the history, then the current user message. -/
def build_messages (env : PromptEnv) (history : List ChatMessage)
    (current_message : String) (skill_names : Option (List String))
    (media : List String) (channel : Option String)
    (chat_id : Option String)
    (user_context : Option UserContext) : List ChatMessage :=
  let sys0 := build_system_prompt env skill_names user_context
  let sys :=
    if pyTruthy channel && pyTruthy chat_id then
      sys0 ++ "\n\n## Current Session\nChannel: " ++ channel.getD ""
        ++ "\nChat ID: " ++ chat_id.getD ""
    else sys0
  { role := "system", content := .text sys } :: history
    ++ [{ role := "user", content := build_user_content env current_message media }]

/-- `ContextBuilder.add_tool_result` (context.py lines 252–277): append one
tool-result message. -/
def add_tool_result (messages : List ChatMessage)
    (tool_call_id tool_name result : String) : List ChatMessage :=
  messages ++ [{ role := "tool", content := .text result,
                 toolCallId := some tool_call_id, name := some tool_name }]

/-- `ContextBuilder.add_assistant_message` (context.py lines 279–302): its
parameters besides `self` and `messages` are exactly `content` and
`tool_calls`; append one assistant message (`content or ""`, tool-call list
attached only when non-empty, which the default-empty field already
captures). -/
def add_assistant_message (messages : List ChatMessage) (content : Option String)
    (tool_calls : List ToolCallDict) : List ChatMessage :=
  messages ++ [{ role := "assistant", content := .text (content.getD ""),
                 toolCalls := tool_calls }]

/-- The keyword parameters `ContextBuilder.add_assistant_message` accepts
(context.py line 279: `messages`, `content`, `tool_calls`). -/
def add_assistant_message_params : List String :=
  ["messages", "content", "tool_calls"]

/-- Python keyword-argument binding: a call site may pass a keyword only if
the callee declares a parameter of that name; otherwise the call raises
`TypeError` before the callee body runs. -/
def kwargsAccepted (params kwargs : List String) : Bool :=
  kwargs.all fun k => params.contains k

/-- A dynamic call of `ContextBuilder.add_assistant_message` passing the
keywords in `kwargs` (loop.py lines 343–346 pass `reasoning_content`, which
context.py line 279 does not declare — Python then raises `TypeError` and the
append never happens). -/
def callAddAssistantMessage (kwargs : List String) (messages : List ChatMessage)
    (content : Option String) (tool_calls : List ToolCallDict) :
    Except String (List ChatMessage) :=
  if kwargsAccepted add_assistant_message_params kwargs then
    .ok (add_assistant_message messages content tool_calls)
  else
    .error "TypeError: add_assistant_message() got an unexpected keyword argument \x27reasoning_content\x27"

/-! ## Sessions and the session store (modelled from the spec) -/

/-- Modelled from the spec: one turn of a session's history (spec §3: role,
content, optional tool-call metadata, timestamp, optional list of tool names
used). The timestamp is supplied by the wall clock when the turn is appended
and is opaque to every verified claim. -/
structure SessionMsg where
  role : String
  content : String
  timestamp : String := ""
  tools_used : Option (List String) := none
deriving Repr, DecidableEq

/-- Modelled from the spec: `Session` (`nanobot/session/manager.py` is not
under `src/`; only its tests and callers are). Spec §3: an opaque key, an
ordered append-only sequence of turns, and the integer consolidation
watermark `last_consolidated` (initially 0, per
`test_initial_last_consolidated_zero`). -/
structure Session where
  key : String
  messages : List SessionMsg := []
  last_consolidated : Nat := 0
deriving Repr, DecidableEq

/-- Modelled from the spec: `Session.add_message` appends one turn (turns are
immutable once appended; no in-place edits). -/
def Session.add_message (s : Session) (role content timestamp : String)
    (tools_used : Option (List String)) : Session :=
  { s with messages := s.messages ++
      [{ role := role, content := content, timestamp := timestamp,
         tools_used := tools_used }] }

/-- Modelled from the spec: `Session.clear` resets the message list to empty
and the watermark to zero together (spec §3 and
`test_clear_resets_last_consolidated`). -/
def Session.clear (s : Session) : Session :=
  { s with messages := [], last_consolidated := 0 }

/-- A stored turn in the dict shape handed to the model as history. -/
def SessionMsg.toChat (m : SessionMsg) : ChatMessage :=
  { role := m.role, content := .text m.content }

/-- Modelled from the spec: `Session.get_history(max_messages)` returns the
most recent `max_messages` turns (spec §8 and
`test_get_history_returns_most_recent`). -/
def Session.get_history (s : Session) (max_messages : Nat) : List ChatMessage :=
  (s.messages.drop (s.messages.length - max_messages)).map SessionMsg.toChat

/-- First value stored under a key in an association list. -/
def lookupKey {α : Type} (k : String) : List (String × α) → Option α
  | [] => none
  | (k2, v) :: rest => if k2 = k then some v else lookupKey k rest

/-- Replace the value under a key in an association list, appending when the
key is absent. -/
def setKey {α : Type} (k : String) (v : α) : List (String × α) → List (String × α)
  | [] => [(k, v)]
  | (k2, v2) :: rest =>
      if k2 = k then (k2, v) :: rest else (k2, v2) :: setKey k v rest

/-- Drop the entries under a key from an association list (the lists model
Python dicts, so key lookup after removal finds nothing). -/
def removeKey {α : Type} (k : String) : List (String × α) → List (String × α)
  | [] => []
  | (k2, v2) :: rest =>
      if k2 = k then removeKey k rest else (k2, v2) :: removeKey k rest

/-- Modelled from the spec: `SessionManager` (spec §6: `get_or_create(key)`,
`save(session)`, `invalidate(key)`), as an in-memory cache of live session
objects over a persisted backing store. -/
structure SessionManager where
  cache : List (String × Session) := []
  persisted : List (String × Session) := []
deriving Repr, DecidableEq

/-- Modelled from the spec: `get_or_create` returns the cached live session,
or loads the persisted one, or lazily creates an empty session under the
key. -/
def SessionManager.get_or_create (m : SessionManager) (key : String) :
    Session × SessionManager :=
  match lookupKey key m.cache with
  | some s => (s, m)
  | none =>
    match lookupKey key m.persisted with
    | some s => (s, { m with cache := setKey key s m.cache })
    | none =>
      let s : Session := { key := key }
      (s, { m with cache := setKey key s m.cache })

/-- Modelled from the spec: `save` persists the session durably (round-trip:
reload yields the same turns and watermark). -/
def SessionManager.save (m : SessionManager) (s : Session) : SessionManager :=
  { m with persisted := setKey s.key s m.persisted,
           cache := setKey s.key s m.cache }

/-- Modelled from the spec: `invalidate` drops the cached live object so the
next `get_or_create` reloads from the persisted store. -/
def SessionManager.invalidate (m : SessionManager) (key : String) :
    SessionManager :=
  { m with cache := removeKey key m.cache }

/-! ## Memory store and bus events (modelled from the spec) -/

/-- Modelled from the spec: `MemoryStore` (`nanobot/agent/memory.py` is not
under `src/`). Spec §3: a replaceable long-term memory document
(`read_long_term` / `write_long_term`) and an append-only history log
(`append_history`), backing MEMORY.md and HISTORY.md. -/
structure MemoryState where
  longTerm : String := ""
  history : List String := []
deriving Repr, DecidableEq

/-- Modelled from the spec: inbound bus event (spec §6: channel, sender
identity, chat identity, text content, optional media references, optional
metadata bag). -/
structure InboundMessage where
  channel : String
  sender_id : String
  chat_id : String
  content : String
  media : List String := []
  metadata : List (String × String) := []
deriving Repr, DecidableEq

/-- Outbound bus event (spec §6: same shape as inbound). -/
structure OutboundMessage where
  channel : String
  chat_id : String
  content : String
  metadata : List (String × String) := []
deriving Repr, DecidableEq

/-- Modelled from the spec: `InboundMessage.session_key`, the
`"channel:chat_id"` conversation identity used for session lookup. -/
def InboundMessage.session_key (m : InboundMessage) : String :=
  m.channel ++ ":" ++ m.chat_id

/-! ## AgentLoop._run_agent_loop (loop.py) -/

/-- Observable outcome of `AgentLoop._run_agent_loop`: the
`(final_content, tools_used)` return value plus the message list, workspace
state and per-model-call log; `error = some e` means an exception propagated
out of the iteration loop. -/
structure AgentLoopResult (σ : Type) where
  error : Option String := none
  finalContent : Option String := none
  toolsUsed : List String := []
  messages : List ChatMessage
  ws : σ
  callLog : List (List ChatMessage)
deriving Repr, DecidableEq

/-- Intermediate state of the per-tool-call loop of `_run_agent_loop`. -/
structure ToolExecState (σ : Type) where
  messages : List ChatMessage
  toolsUsed : List String
  ws : σ

/-- The tool-execution block of `_run_agent_loop` (loop.py lines 348–355):
record each tool name, execute the call, and append its result via
`context.add_tool_result`, sequentially in request order. (In the source this
block is unreachable — see `runAgentLoop` — but is embedded as written.) -/
def execAgentTools {σ : Type} (tools : ToolRegistry σ) :
    List ToolCall → List ChatMessage → List String → σ → ToolExecState σ
  | [], msgs, used, ws => ⟨msgs, used, ws⟩
  | tc :: rest, msgs, used, ws =>
    let r := tools.execute tc.name tc.arguments ws
    execAgentTools tools rest (add_tool_result msgs tc.id tc.name r.1)
      (used ++ [tc.name]) r.2

/-- `AgentLoop._run_agent_loop` (loop.py lines 305–361). Per iteration: call
the model; without tool calls the response text is the final content; with
tool calls, build the raw tool-call dicts and call
`context.add_assistant_message` passing the `reasoning_content` keyword
(loop.py lines 343–346) — a call that raises `TypeError`, because context.py
declares no such parameter — then (were that call to succeed) execute each
tool in order, append its result, append the continuation nudge turn, and
iterate. Provider exceptions and the `TypeError` both propagate out. -/
def runAgentLoop {σ : Type} (tools : ToolRegistry σ) (script : ProviderScript)
    (max_iterations : Nat) (messages : List ChatMessage) (ws : σ)
    (toolsUsed : List String) (callLog : List (List ChatMessage)) :
    AgentLoopResult σ :=
  match max_iterations with
  | 0 =>
    { messages := messages, ws := ws, toolsUsed := toolsUsed, callLog := callLog }
  | n + 1 =>
    match script with
    | [] =>
      { error := some "provider unavailable", messages := messages, ws := ws,
        toolsUsed := toolsUsed, callLog := callLog ++ [messages] }
    | .error e :: _ =>
      { error := some e, messages := messages, ws := ws,
        toolsUsed := toolsUsed, callLog := callLog ++ [messages] }
    | .ok r :: rest =>
      if r.has_tool_calls then
        let tool_call_dicts := format_tool_calls r.toolCalls
        match callAddAssistantMessage ["reasoning_content"] messages r.content
            tool_call_dicts with
        | .error e =>
          { error := some e, messages := messages, ws := ws,
            toolsUsed := toolsUsed, callLog := callLog ++ [messages] }
        | .ok messages1 =>
          let step := execAgentTools tools r.toolCalls messages1 toolsUsed ws
          runAgentLoop tools rest n
            (step.messages ++
              [{ role := "user",
                 content := .text "Reflect on the results and decide next steps." }])
            step.ws step.toolsUsed (callLog ++ [messages])
      else
        { finalContent := r.content, messages := messages, ws := ws,
          toolsUsed := toolsUsed, callLog := callLog ++ [messages] }

/-! ## AgentLoop._consolidate_memory (loop.py) -/

/-- Python list slice `msgs[lo:-keep]`: the elements from index `lo` up to
`len - keep` exclusive — empty when `keep = 0`, since Python `-0` is `0`. -/
def pyTailSlice {α : Type} (msgs : List α) (lo keep : Nat) : List α :=
  if keep = 0 then [] else (msgs.take (msgs.length - keep)).drop lo

/-- One transcript line of the consolidation prompt (loop.py lines 584–588):
skipped entirely for a content-less turn; `[timestamp[:16]] ROLE [tools: …]:
content`, with `?` when the timestamp is missing. -/
def renderLine (m : SessionMsg) : Option String :=
  if m.content = "" then none
  else
    let ts := if m.timestamp = "" then "?" else m.timestamp
    let tools := match m.tools_used with
      | some l =>
        if l.isEmpty then "" else " [tools: " ++ String.intercalate ", " l ++ "]"
      | none => ""
    some ("[" ++ strTake ts 16 ++ "] " ++ pyUpper m.role ++ tools ++ ": " ++ m.content)

/-- The consolidation prompt (loop.py lines 592–604) over the current
long-term memory and the rendered transcript. -/
def consolidationPrompt (current_memory conversation : String) : String :=
  String.intercalate "\n"
    [ "You are a memory consolidation agent. Process this conversation and return a JSON object with exactly two keys:",
      "",
      "1. \"history_entry\": A paragraph (2-5 sentences) summarizing the key events/decisions/topics. Start with a timestamp like [YYYY-MM-DD HH:MM]. Include enough detail to be useful when found by grep search later.",
      "",
      "2. \"memory_update\": The updated long-term memory content. Only add facts that are clearly important and likely to recur. Do NOT extract trivia, one-off mentions, or casual details. If nothing new, return the existing content unchanged.",
      "",
      "## Current Long-term Memory",
      (if current_memory = "" then "(empty)" else current_memory),
      "",
      "## Conversation to Process",
      conversation,
      "",
      "Respond with ONLY valid JSON, no markdown fences." ]

/-- The code-fence stripping of loop.py lines 618–619:
`text.split("\n", 1)[-1].rsplit("```", 1)[0].strip()` when the text starts
with a fence. -/
def stripFences (text : String) : String :=
  if charsStartWith "```".data text.data then
    let afterFirstLine : List Char :=
      match splitFirstChar (Char.ofNat 10) text.data with
      | some pr => pr.2
      | none => text.data
    let beforeLastFence : List Char :=
      match splitLast "```".data afterFirstLine with
      | some pr => pr.1
      | none => afterFirstLine
    pyStrip ⟨beforeLastFence⟩
  else text

/-- Result of `json_repair.loads` on the (fence-stripped) model text, as the
consolidation code observes it: a dict with the two optional keys, or any
non-dict value. `json_repair` is an external library, abstracted as a
function `String → ParsedJson` below. -/
inductive ParsedJson where
  | dict (history_entry : Option String) (memory_update : Option String)
  | nonDict
deriving Repr, DecidableEq

/-- Observable outcome of one `_consolidate_memory` run: the session and
memory afterwards, whether a model call was made, and the consolidation
prompt sent to it (for specification purposes). -/
structure ConsolidateResult where
  session : Session
  memory : MemoryState
  calledModel : Bool
  prompt : Option String := none
deriving Repr, DecidableEq

/-- `AgentLoop._consolidate_memory` (loop.py lines 554–637). In incremental
mode (`archive_all = false`) it returns untouched unless the session exceeds
the retained tail (`keep_count = memory_window // 2`), new turns exist past
the watermark, and the slice `messages[last_consolidated:-keep_count]` is
non-empty; in archive mode it processes every turn of the (detached) session.
It renders the transcript, makes one model call, and — only after a
successful parse into a dict — appends the truthy history entry, replaces the
long-term document when the truthy update differs from the pre-call read, and
sets the watermark (`0` in archive mode, `total − keep_count` otherwise). An
empty response, a non-dict parse, or a raised transport error leaves session
and memory untouched; exceptions are caught and logged, never re-raised.
`consolidationSpan` is the guard block (loop.py lines 563–581): the span of
turns a run would process, `none` when the run returns early without a model
call. -/
def consolidationSpan (memory_window : Nat) (s : Session) (archive_all : Bool) :
    Option (List SessionMsg) :=
  let keep_count := if archive_all then 0 else memory_window / 2
  if archive_all then some s.messages
  else if s.messages.length ≤ keep_count then none
  else if (s.messages.length : Int) - (s.last_consolidated : Int) ≤ 0 then none
  else
    let old := pyTailSlice s.messages s.last_consolidated keep_count
    if old.isEmpty then none else some old

/-- The body of `_consolidate_memory` (see `consolidationSpan` above for the
guard): render the span, call the model once, and apply the parsed output and
watermark update only on a successful dict parse. -/
def consolidate (parse : String → ParsedJson)
    (resp : Except String ModelResponse) (memory_window : Nat) (s : Session)
    (mem : MemoryState) (archive_all : Bool) : ConsolidateResult :=
  let keep_count := if archive_all then 0 else memory_window / 2
  match consolidationSpan memory_window s archive_all with
  | none => ⟨s, mem, false, none⟩
  | some old_messages =>
    let conversation := String.intercalate "\n" (old_messages.filterMap renderLine)
    let current_memory := mem.longTerm
    let prompt := consolidationPrompt current_memory conversation
    match resp with
    | .error _ => ⟨s, mem, true, some prompt⟩
    | .ok r =>
      let text := pyStrip (r.content.getD "")
      if text = "" then ⟨s, mem, true, some prompt⟩
      else
        match parse (stripFences text) with
        | .nonDict => ⟨s, mem, true, some prompt⟩
        | .dict he mu =>
          let mem1 :=
            if pyTruthy he then { mem with history := mem.history ++ [he.getD ""] }
            else mem
          let mem2 :=
            if pyTruthy mu ∧ mu.getD "" ≠ current_memory then
              { mem1 with longTerm := mu.getD "" }
            else mem1
          let s1 :=
            if archive_all then { s with last_consolidated := 0 }
            else { s with last_consolidated := s.messages.length - keep_count }
          ⟨s1, mem2, true, some prompt⟩

/-! ## AgentLoop message processing (loop.py) -/

/-- A background task detached with `asyncio.create_task` during message
processing: the threshold-triggered incremental consolidation of the live
session, or the full-archive consolidation of the pre-clear copy made by the
`/new`–`/clear` handler. -/
inductive BgTask where
  | consolidateLive
  | consolidateArchive (temp : Session)
deriving Repr, DecidableEq

instance {ε α : Type} [DecidableEq ε] [DecidableEq α] : DecidableEq (Except ε α) :=
  fun x y =>
    match x, y with
    | .error a, .error b => decidable_of_iff (a = b) (by simp)
    | .error _, .ok _ => isFalse (by simp)
    | .ok _, .error _ => isFalse (by simp)
    | .ok a, .ok b => decidable_of_iff (a = b) (by simp)

/-- Observable outcome of `AgentLoop._process_message`: the returned outbound
response (or the propagated exception), the session store, the detached
background tasks scheduled along the way, and the workspace state. -/
structure ProcResult (σ : Type) where
  outcome : Except String OutboundMessage
  sessions : SessionManager
  bg : List BgTask
  ws : σ
deriving Repr, DecidableEq

/-- The `/help` reply text (loop.py lines 440–442). -/
def helpText : String :=
  "nanobot commands:\n/new — Start a new conversation\n/clear — Clear session and start fresh\n/help — Show available commands"

/-- Parsing of the system-message origin tag (loop.py lines 512–519):
`chat_id` is `"channel:chat_id"`, split at the first colon, with the `cli`
fallback when no colon is present. -/
def splitOriginTag (chat_id : String) : String × String :=
  match splitFirstChar (Char.ofNat 58) chat_id.data with
  | some pr => (String.mk pr.1, String.mk pr.2)
  | none => ("cli", chat_id)

/-- `AgentLoop._process_system_message` (loop.py lines 502–552): route by the
origin tag, rebuild context from that session, run the agent loop,
substitute `"Background task completed."` for a missing final content,
append the `[System: sender]` user turn and the assistant turn, save, and
answer toward the origin. A propagated loop exception leaves the session
without the new turns and unsaved. (Honcho disabled: the local store is the
one persisted.) -/
def processSystemMessage {σ : Type} (env : PromptEnv) (tools : ToolRegistry σ)
    (script : ProviderScript) (memory_window max_iterations : Nat)
    (mgr : SessionManager) (msg : InboundMessage) (ws : σ) : ProcResult σ :=
  let origin := splitOriginTag msg.chat_id
  let session_key := origin.1 ++ ":" ++ origin.2
  let got := mgr.get_or_create session_key
  let session := got.1
  let mgr1 := got.2
  let initial := build_messages env (session.get_history memory_window)
    msg.content none [] (some origin.1) (some origin.2) none
  let r := runAgentLoop tools script max_iterations initial ws [] []
  match r.error with
  | some e => ⟨.error e, mgr1, [], r.ws⟩
  | none =>
    let final := r.finalContent.getD "Background task completed."
    let user_content := "[System: " ++ msg.sender_id ++ "] " ++ msg.content
    let session1 :=
      (session.add_message "user" user_content "" none).add_message
        "assistant" final "" none
    ⟨.ok { channel := origin.1, chat_id := origin.2, content := final },
      mgr1.save session1, [], r.ws⟩

/-- `AgentLoop._process_message` (loop.py lines 397–500), in the default
configuration with Honcho disabled. System-channel messages are routed to
`processSystemMessage`. `/new` and `/clear` copy the pre-clear turns, clear
and persist the live session, invalidate the cache, detach a full-archive
consolidation over a fresh temporary session holding the copy, and reply
`"Session cleared."` at once. `/help` replies with the command list. For an
ordinary message: when the session exceeds the memory window an incremental
consolidation of the live session is detached; context is built from the
trimmed history and the current input; the agent loop runs; a missing final
content is substituted with the fixed string; the user and assistant turns
are appended and the session saved, together, only on success; a propagated
loop exception leaves turns and store untouched. -/
def processMessage {σ : Type} (env : PromptEnv) (tools : ToolRegistry σ)
    (script : ProviderScript) (memory_window max_iterations : Nat)
    (mgr : SessionManager) (msg : InboundMessage) (ws : σ)
    (session_key : Option String) : ProcResult σ :=
  if msg.channel = "system" then
    processSystemMessage env tools script memory_window max_iterations mgr msg ws
  else
    let key := session_key.getD msg.session_key
    let got := mgr.get_or_create key
    let session := got.1
    let mgr1 := got.2
    let cmd := pyLower (pyStrip msg.content)
    if cmd = "/new" ∨ cmd = "/clear" then
      let messages_to_archive := session.messages
      let session1 := session.clear
      let mgr2 := (mgr1.save session1).invalidate session1.key
      let temp : Session := { key := session.key, messages := messages_to_archive }
      ⟨.ok { channel := msg.channel, chat_id := msg.chat_id,
             content := "Session cleared." },
        mgr2, [.consolidateArchive temp], ws⟩
    else if cmd = "/help" then
      ⟨.ok { channel := msg.channel, chat_id := msg.chat_id, content := helpText },
        mgr1, [], ws⟩
    else
      let bg :=
        if memory_window < session.messages.length then [BgTask.consolidateLive]
        else []
      let initial := build_messages env (session.get_history memory_window)
        msg.content none msg.media (some msg.channel) (some msg.chat_id) none
      let r := runAgentLoop tools script max_iterations initial ws [] []
      match r.error with
      | some e => ⟨.error e, mgr1, bg, r.ws⟩
      | none =>
        let final :=
          r.finalContent.getD "I\x27ve completed processing but have no response to give."
        let session1 :=
          (session.add_message "user" msg.content "" none).add_message
            "assistant" final ""
            (if r.toolsUsed.isEmpty then none else some r.toolsUsed)
        ⟨.ok { channel := msg.channel, chat_id := msg.chat_id, content := final,
               metadata := msg.metadata },
          mgr1.save session1, bg, r.ws⟩

/-- Everything the consumer loop body leaves behind: the outbound messages it
published, the session store, the scheduled background tasks, and the
workspace state. -/
structure ConsumerResult (σ : Type) where
  published : List OutboundMessage
  sessions : SessionManager
  bg : List BgTask
  ws : σ
deriving Repr, DecidableEq

/-- One trip of the consumer loop body of `AgentLoop.run` (loop.py lines
371–390): process the message and publish the response; when processing
raises, catch the exception and publish the user-visible apology built from
its text to the message's own channel and chat. -/
def handleInbound {σ : Type} (env : PromptEnv) (tools : ToolRegistry σ)
    (script : ProviderScript) (memory_window max_iterations : Nat)
    (mgr : SessionManager) (msg : InboundMessage) (ws : σ) : ConsumerResult σ :=
  let r := processMessage env tools script memory_window max_iterations mgr msg ws none
  match r.outcome with
  | .ok resp => ⟨[resp], r.sessions, r.bg, r.ws⟩
  | .error e =>
    ⟨[{ channel := msg.channel, chat_id := msg.chat_id,
        content := "Sorry, I encountered an error: " ++ e }],
      r.sessions, r.bg, r.ws⟩

/-! ## SubagentManager (subagent.py) -/

/-- `SubagentManager._build_subagent_prompt` (subagent.py lines 197–262):
the task-focused system prompt with optional conversation-context,
user-context and relevant-files sections, joined with newlines. -/
def buildSubagentPrompt (workspace task : String)
    (context_summary : Option String) (relevant_files : Option (List String))
    (user_context : Option UserContext) : String :=
  let head := String.intercalate "\n"
    [ "# Subagent",
      "",
      "You are a subagent spawned by the main agent to complete a specific task.",
      "",
      "## Your Task",
      task,
      "",
      "## Rules",
      "1. Stay focused - complete only the assigned task, nothing else",
      "2. Your final response will be reported back to the main agent",
      "3. Do not initiate conversations or take on side tasks",
      "4. Be concise but informative in your findings",
      "",
      "## What You Can Do",
      "- Read and write files in the workspace",
      "- Execute shell commands",
      "- Search the web and fetch web pages",
      "- Complete the task thoroughly",
      "",
      "## What You Cannot Do",
      "- Send messages directly to users (no message tool available)",
      "- Spawn other subagents",
      "",
      "## Workspace",
      "Your workspace is at: " ++ workspace ]
  let parts := [head]
    ++ (match context_summary with
        | some cs =>
          ["\n## Conversation Context\nThe main agent provided this summary of the relevant conversation context:\n" ++ cs]
        | none => [])
    ++ (match user_context with
        | some uc =>
          let context_lines :=
            (if uc.representation ≠ "" then ["User Profile: " ++ uc.representation] else [])
            ++ (if uc.card ≠ "" then ["User Notes: " ++ uc.card] else [])
          if context_lines.isEmpty then []
          else
            ["\n## User Context (from Honcho)\n" ++ String.intercalate "\n" context_lines
              ++ "\nConsider these user preferences when completing your task."]
        | none => [])
    ++ (match relevant_files with
        | some files =>
          if files.isEmpty then []
          else
            ["\n## Relevant Files\nThese files may be relevant to your task:\n"
              ++ String.intercalate "\n" (files.map fun f => "- " ++ f)]
        | none => [])
    ++ ["\nWhen you have completed the task, provide a clear summary of your findings or actions."]
  String.intercalate "\n" parts

/-- The status phrase of `_announce_result` (subagent.py line 175). -/
def statusText (status : String) : String :=
  if status = "ok" then "completed successfully" else "failed"

/-- The announcement payload of `_announce_result` (subagent.py lines
177–184). -/
def announceContent (label task result status : String) : String :=
  "[Subagent \x27" ++ label ++ "\x27 " ++ statusText status ++ "]\n\nTask: "
    ++ task ++ "\n\nResult:\n" ++ result
    ++ "\n\nSummarize this naturally for the user. Keep it brief (1-2 sentences). Do not mention technical details like \"subagent\" or task IDs."

/-- `SubagentManager._announce_result` (subagent.py lines 165–195): the
system-origin inbound event published on the bus — channel `system`, sender
`subagent`, chat id carrying the `"channel:chat_id"` origin tag. -/
def announceEvent (label task result : String) (origin : String × String)
    (status : String) : InboundMessage :=
  { channel := "system", sender_id := "subagent",
    chat_id := origin.1 ++ ":" ++ origin.2,
    content := announceContent label task result status }

/-- The initial message list of a subagent run (subagent.py lines 136–139):
the task-focused system prompt and the task text as the user turn. -/
def subagentMessages (workspace task : String) (context_summary : Option String)
    (relevant_files : Option (List String)) (user_context : Option UserContext) :
    List ChatMessage :=
  [{ role := "system",
     content := .text (buildSubagentPrompt workspace task context_summary
       relevant_files user_context) },
   { role := "user", content := .text task }]

/-- Observable outcome of one `_run_subagent` task: the inbound events it
published on the bus, the shared budget afterwards, and the workspace
state. -/
structure SubagentOutcome (σ : Type) where
  published : List InboundMessage
  budget : Option SpendBudget
  ws : σ
deriving Repr, DecidableEq

/-- `SubagentManager._run_subagent` (subagent.py lines 102–163): build the
reduced tool set and the task prompt, run `core.run_loop` with
`max_iterations = 15` against the shared budget under the
`subagent:<task_id>` source label, substitute the fixed texts for budget
exhaustion and for a missing final response, and announce with status `ok`;
any exception raised during execution is caught and announced with status
`error` and the stringified exception as the result. The function itself
never propagates an exception to the spawning loop. -/
def runSubagent {σ : Type} (tools : ToolRegistry σ) (script : ProviderScript)
    (budget : Option SpendBudget) (workspace task_id task label : String)
    (origin : String × String) (context_summary : Option String)
    (relevant_files : Option (List String)) (user_context : Option UserContext)
    (ws : σ) : SubagentOutcome σ :=
  let messages :=
    subagentMessages workspace task context_summary relevant_files user_context
  let r := run_loop tools script ("subagent:" ++ task_id) 15 messages budget ws []
  match r.error with
  | some e =>
    ⟨[announceEvent label task ("Error: " ++ e) origin "error"], r.budget, r.ws⟩
  | none =>
    let final_result :=
      if r.budgetExhausted then "Budget exhausted - stopping subagent"
      else r.finalContent.getD "Task completed but no final response was generated."
    ⟨[announceEvent label task final_result origin "ok"], r.budget, r.ws⟩

/-! ## Concrete instances used by witnesses and counterexamples -/

/-- A registry whose tools do nothing (unit workspace state). -/
def unitTools : ToolRegistry Unit :=
  ⟨fun _ _ ws => ("", ws)⟩

/-- A registry over a log-of-executions workspace state: each tool returns a
result that depends on how many tools ran before it and appends its name to
the log, so request order and sequential threading are observable. -/
def logTools : ToolRegistry (List String) :=
  ⟨fun name _ ws => ("r" ++ toString ws.length, ws ++ [name])⟩

/-- The two tool calls of the spec scenario (one response, two calls). -/
def batchCalls : List ToolCall :=
  [{ id := "call_a", name := "alpha", arguments := "x=1" },
   { id := "call_b", name := "beta", arguments := "y=2" }]

/-- Initial message list for the spec scenario. -/
def batchInitial : List ChatMessage :=
  [{ role := "system", content := .text "s" },
   { role := "user", content := .text "hi" }]

/-- Provider script for the spec scenario: first response carries the two
tool calls, second response is the plain-text finish. -/
def batchScript : ProviderScript :=
  [.ok { content := some "checking", toolCalls := batchCalls },
   .ok { content := some "done" }]

/-- The message list after the first scenario iteration on the `core.run_loop`
path: one assistant turn with both calls, then the two tool results in
request order (the result text `r0`/`r1` and the workspace log witness the
sequential, in-order execution). -/
def batchAfterFirst : List ChatMessage :=
  batchInitial ++
    [{ role := "assistant", content := .text "checking",
       toolCalls := [{ id := "call_a", type := "function", functionName := "alpha",
                       functionArguments := "x=1" },
                     { id := "call_b", type := "function", functionName := "beta",
                       functionArguments := "y=2" }] },
     { role := "tool", content := .text "r0", toolCallId := some "call_a",
       name := some "alpha" },
     { role := "tool", content := .text "r1", toolCallId := some "call_b",
       name := some "beta" }]

/-- A minimal prompt environment: empty workspace, no memory, no skills,
Honcho disabled; the clock reading is the parameter. -/
def plainEnv (now : String) : PromptEnv :=
  { bootstrapFile := fun _ => none, memoryContext := "", alwaysSkills := [],
    alwaysSkillsContent := "", skillsSummary := "", honchoEnabled := false,
    now := now, runtime := "Linux x86_64, Python 3.11.0",
    workspacePath := "/w", imageData := fun _ => none }

/-- An already-exhausted budget (ceiling reached). -/
def exhaustedBudget : SpendBudget :=
  { ceiling := some 5, totalCost := 5 }

/-- A fresh budget with headroom. -/
def freshBudget : SpendBudget :=
  { ceiling := some 5 }

/-- An ordinary inbound chat message (not a command, not system-channel). -/
def demoMsg : InboundMessage :=
  { channel := "tg", sender_id := "u1", chat_id := "42", content := "hi" }

/-- A system-channel inbound event (subagent announcement shape). -/
def sysDemoMsg : InboundMessage :=
  { channel := "system", sender_id := "subagent", chat_id := "tg:42",
    content := "[Subagent done]" }

/-- A short stored conversation. -/
def demoTurns : List SessionMsg :=
  [{ role := "user", content := "m1" },
   { role := "assistant", content := "r1" },
   { role := "user", content := "m2" }]

/-- A session whose three turns are all consolidated already. -/
def caughtUpSession : Session :=
  { key := "tg:42", messages := demoTurns, last_consolidated := 3 }

/-- A five-turn session with nothing consolidated yet. -/
def behindSession : Session :=
  { key := "tg:42",
    messages := demoTurns ++
      [{ role := "assistant", content := "r2" },
       { role := "user", content := "m3" }],
    last_consolidated := 0 }

/-- A memory state with one prior history entry. -/
def demoMem : MemoryState :=
  { longTerm := "old facts", history := ["e0"] }

/-- A parse outcome that always yields the two-field dict. -/
def dictParse : String → ParsedJson :=
  fun _ => .dict (some "E") (some "M")

/-- A parse outcome that never yields a dict. -/
def listParse : String → ParsedJson :=
  fun _ => .nonDict

/-- A session store with one persisted session under `tg:42`. -/
def demoMgr : SessionManager :=
  { persisted := [("tg:42", caughtUpSession)] }

/-- A `/new` command with surrounding noise (exercises the strip/lower
normalization). -/
def clearMsg : InboundMessage :=
  { channel := "tg", sender_id := "u1", chat_id := "42", content := " /NEW " }

/-! ## Helper lemmas -/

theorem sourceSpend_addToSource (src : String) (c : Nat)
    (l : List (String × Nat)) :
    sourceSpend src (addToSource src c l) = sourceSpend src l + c := by
  induction l with
  | nil => simp [addToSource, sourceSpend]
  | cons p rest ih =>
    obtain ⟨s, v⟩ := p
    by_cases h : s = src
    · simp [addToSource, sourceSpend, h]
    · simp [addToSource, sourceSpend, h, ih]

theorem lookupKey_setKey_self {α : Type} (k : String) (v : α)
    (l : List (String × α)) : lookupKey k (setKey k v l) = some v := by
  induction l with
  | nil => simp [setKey, lookupKey]
  | cons p rest ih =>
    obtain ⟨k2, v2⟩ := p
    by_cases h : k2 = k
    · simp [setKey, lookupKey, h]
    · simp [setKey, lookupKey, h, ih]

theorem lookupKey_removeKey {α : Type} (k : String)
    (l : List (String × α)) : lookupKey k (removeKey k l) = none := by
  induction l with
  | nil => simp [removeKey, lookupKey]
  | cons p rest ih =>
    obtain ⟨k2, v2⟩ := p
    by_cases h : k2 = k
    · simpa [removeKey, h] using ih
    · simp [removeKey, lookupKey, h, ih]

theorem get_or_create_stable (mgr : SessionManager) (k : String) :
    ((mgr.get_or_create k).2.get_or_create k).1 = (mgr.get_or_create k).1 ∧
    ((mgr.get_or_create k).2).persisted = mgr.persisted := by
  unfold SessionManager.get_or_create
  cases hc : lookupKey k mgr.cache with
  | some s => simp [hc]
  | none =>
    cases hp : lookupKey k mgr.persisted with
    | some s => simp [hc, hp, lookupKey_setKey_self]
    | none => simp [hc, hp, lookupKey_setKey_self]

theorem pyTailSlice_eq_nil {α : Type} (msgs : List α) (lo keep : Nat)
    (h : msgs.length ≤ lo + keep) : pyTailSlice msgs lo keep = [] := by
  unfold pyTailSlice
  by_cases hk : keep = 0
  · simp [hk]
  · simp only [hk, if_false]
    have hlen : ((msgs.take (msgs.length - keep)).drop lo).length = 0 := by
      simp only [List.length_drop, List.length_take]
      omega
    exact List.eq_nil_of_length_eq_zero hlen

theorem pyTailSlice_ne_nil {α : Type} (msgs : List α) (lo keep : Nat)
    (hk : keep ≠ 0) (h : lo + keep < msgs.length) :
    pyTailSlice msgs lo keep ≠ [] := by
  unfold pyTailSlice
  simp only [hk, if_false]
  intro hnil
  have hlen := congrArg List.length hnil
  simp only [List.length_drop, List.length_take, List.length_nil] at hlen
  omega

/-! ## Claims -/

/-- C2: in `run_loop`, an attached budget that reports exhausted at the top
of an iteration makes the loop stop with no final content and the exhausted
flag, without another model call (the call log does not grow) and with the
budget untouched; a model call that raises leaves the budget uncharged (cost
is added only after the call returns); and a returned call's cost and usage
are added under the caller-supplied source label, whose recorded spend grows
by exactly the call cost. -/
theorem run_loop_budget_gate {σ : Type} (tools : ToolRegistry σ)
    (script : ProviderScript) (source : String) (n : Nat)
    (msgs : List ChatMessage) (ws : σ) (b : SpendBudget)
    (log : List (List ChatMessage)) :
    (b.is_exhausted = true →
      run_loop tools script source (n + 1) msgs (some b) ws log =
        { budgetExhausted := true, messages := msgs, budget := some b,
          ws := ws, callLog := log }) ∧
    (b.is_exhausted = false → ∀ (e : String) (rest : ProviderScript),
      script = .error e :: rest →
      run_loop tools script source (n + 1) msgs (some b) ws log =
        { error := some e, messages := msgs, budget := some b, ws := ws,
          callLog := log ++ [msgs] }) ∧
    (b.is_exhausted = false → ∀ (r : ModelResponse) (rest : ProviderScript),
      script = .ok r :: rest → r.toolCalls = [] →
      (run_loop tools script source (n + 1) msgs (some b) ws log).budget =
        some (b.add_cost r.cost
          (match r.usage with | some u => u.promptTokens | none => 0)
          (match r.usage with | some u => u.completionTokens | none => 0)
          source) ∧
      sourceSpend source
          (b.add_cost r.cost
            (match r.usage with | some u => u.promptTokens | none => 0)
            (match r.usage with | some u => u.completionTokens | none => 0)
            source).bySource =
        sourceSpend source b.bySource + r.cost) := by
  refine ⟨fun hex => ?_, fun hex e rest hs => ?_, fun hex r rest hs hnotc => ?_⟩
  · unfold run_loop
    simp [hex]
  · subst hs
    unfold run_loop
    simp [hex]
  · subst hs
    refine ⟨?_, ?_⟩
    · unfold run_loop
      simp [hex, ModelResponse.has_tool_calls, hnotc]
    · simp [SpendBudget.add_cost, sourceSpend_addToSource]

/-- Witness for C2 at concrete inputs: an exhausted budget stops the loop
before any model call; a raising first call propagates with the budget
unchanged; a returned call charges its cost under the source label. -/
theorem run_loop_budget_gate_witness :
    (run_loop unitTools [] "agent" 1 [] (some exhaustedBudget) () [] =
      { budgetExhausted := true, messages := [], budget := some exhaustedBudget,
        ws := (), callLog := [] }) ∧
    (run_loop unitTools [.error "boom"] "agent" 1 [] (some freshBudget) () [] =
      { error := some "boom", messages := [], budget := some freshBudget,
        ws := (), callLog := [[]] }) ∧
    ((run_loop unitTools [.ok { content := some "hi", cost := 3 }] "agent" 1 []
        (some freshBudget) () []).budget =
      some (freshBudget.add_cost 3 0 0 "agent") ∧
      sourceSpend "agent" (freshBudget.add_cost 3 0 0 "agent").bySource =
        sourceSpend "agent" freshBudget.bySource + 3) :=
  ⟨(run_loop_budget_gate unitTools [] "agent" 0 [] () exhaustedBudget []).1
      (by decide),
   (run_loop_budget_gate unitTools [.error "boom"] "agent" 0 [] () freshBudget
      []).2.1 (by decide) "boom" [] rfl,
   (run_loop_budget_gate unitTools [.ok { content := some "hi", cost := 3 }]
      "agent" 0 [] () freshBudget []).2.2 (by decide)
      { content := some "hi", cost := 3 } [] rfl rfl⟩

/-- C1: on the `core.run_loop` path a response carrying N tool calls yields
exactly one assistant turn carrying all N calls followed by one tool-result
turn per call, with matching identifiers, executed sequentially in request
order, all before the next model call — the general identifier/role facts
hold for every batch, and the spec scenario (two calls in the first
response) produces the expected trace. On the `AgentLoop._run_agent_loop`
path, however, the same scenario raises `TypeError` (loop.py lines 343–346
pass `reasoning_content` to `context.add_assistant_message`, which declares
no such parameter), so no assistant turn and no tool results are appended
and the exception propagates. -/
theorem tool_batch_one_assistant_turn_then_results :
    (∀ (σ : Type) (tools : ToolRegistry σ) (tcs : List ToolCall) (ws : σ),
      ((execToolCalls tools tcs ws).1.map (fun m => m.toolCallId) =
        tcs.map (fun tc => some tc.id)) ∧
      ((execToolCalls tools tcs ws).1.map (fun m => m.role) =
        tcs.map (fun _ => "tool"))) ∧
    (run_loop logTools batchScript "agent" 20 batchInitial none [] [] =
      { finalContent := some "done", messages := batchAfterFirst,
        budget := none, ws := ["alpha", "beta"],
        callLog := [batchInitial, batchAfterFirst] }) ∧
    (runAgentLoop logTools batchScript 20 batchInitial [] [] [] =
      { error := some "TypeError: add_assistant_message() got an unexpected keyword argument \x27reasoning_content\x27",
        messages := batchInitial, ws := [], callLog := [batchInitial] }) := by
  refine ⟨?_, by decide, by decide⟩
  intro σ tools tcs
  induction tcs with
  | nil => intro ws; constructor <;> simp [execToolCalls]
  | cons tc rest ih =>
    intro ws
    have h := ih (tools.execute tc.name tc.arguments ws).2
    refine ⟨?_, ?_⟩ <;> simp [execToolCalls, h.1, h.2]

/-- C4: a consolidation run leaves the watermark and the stored memory
untouched on every failure — a transport error raised by the model call, an
empty response, or a response whose (fence-stripped) text does not parse to a
dict — and never raises; the watermark is advanced (to `total − keep_count`)
and the history entry persisted only after a successful dict parse. -/
theorem consolidation_persists_only_after_parse
    (parse : String → ParsedJson) (w : Nat) (s : Session) (mem : MemoryState)
    (a : Bool) :
    (∀ (e : String), (consolidate parse (.error e) w s mem a).session = s ∧
      (consolidate parse (.error e) w s mem a).memory = mem) ∧
    (∀ (r : ModelResponse), pyStrip (r.content.getD "") = "" →
      (consolidate parse (.ok r) w s mem a).session = s ∧
      (consolidate parse (.ok r) w s mem a).memory = mem) ∧
    (∀ (r : ModelResponse),
      parse (stripFences (pyStrip (r.content.getD ""))) = .nonDict →
      (consolidate parse (.ok r) w s mem a).session = s ∧
      (consolidate parse (.ok r) w s mem a).memory = mem) ∧
    (∀ (r : ModelResponse) (he mu : Option String),
      parse (stripFences (pyStrip (r.content.getD ""))) = .dict he mu →
      pyStrip (r.content.getD "") ≠ "" →
      0 < w / 2 → s.last_consolidated + w / 2 < s.messages.length →
      (consolidate parse (.ok r) w s mem false).session =
        { s with last_consolidated := s.messages.length - w / 2 } ∧
      (pyTruthy he = true →
        (consolidate parse (.ok r) w s mem false).memory.history =
          mem.history ++ [he.getD ""])) := by
  refine ⟨fun e => ?_, fun r htext => ?_, fun r hparse => ?_,
    fun r he mu hparse htext hk hspanlt => ?_⟩
  · unfold consolidate
    cases hsp : consolidationSpan w s a <;> simp [hsp]
  · unfold consolidate
    cases hsp : consolidationSpan w s a <;> simp [hsp, htext]
  · by_cases htext : pyStrip (r.content.getD "") = ""
    · unfold consolidate
      cases hsp : consolidationSpan w s a <;> simp [hsp, htext]
    · unfold consolidate
      cases hsp : consolidationSpan w s a <;> simp [hsp, htext, hparse]
  · have hspan : consolidationSpan w s false =
        some (pyTailSlice s.messages s.last_consolidated (w / 2)) := by
      unfold consolidationSpan
      have h1 : ¬ s.messages.length ≤ w / 2 := by omega
      have h2 : ¬ ((s.messages.length : Int) - (s.last_consolidated : Int) ≤ 0) := by
        omega
      have h3 : ¬ (pyTailSlice s.messages s.last_consolidated (w / 2)).isEmpty = true := by
        rw [List.isEmpty_iff]
        exact pyTailSlice_ne_nil s.messages s.last_consolidated (w / 2)
          (by omega) hspanlt
      simp [h1, h2, h3]
    unfold consolidate
    rw [hspan]
    refine ⟨?_, fun htruthy => ?_⟩
    · simp [htext, hparse]
    · simp [htext, hparse, htruthy, apply_ite MemoryState.history]

/-- Witness for C4 at concrete inputs: a raised model call and a non-dict
parse leave the session and memory unchanged; a successful dict parse on the
five-turn session advances the watermark to `5 − 4/2 = 3` and appends the
history entry. -/
theorem consolidation_persists_only_after_parse_witness :
    ((consolidate dictParse (.error "boom") 4 caughtUpSession demoMem false).session =
        caughtUpSession ∧
      (consolidate dictParse (.error "boom") 4 caughtUpSession demoMem false).memory =
        demoMem) ∧
    ((consolidate listParse (.ok { content := some "nope" }) 4 behindSession
        demoMem false).session = behindSession ∧
      (consolidate listParse (.ok { content := some "nope" }) 4 behindSession
        demoMem false).memory = demoMem) ∧
    ((consolidate dictParse (.ok { content := some "x" }) 4 behindSession
        demoMem false).session =
      { behindSession with last_consolidated := 3 } ∧
      (consolidate dictParse (.ok { content := some "x" }) 4 behindSession
        demoMem false).memory.history = ["e0", "E"]) := by
  refine ⟨(consolidation_persists_only_after_parse dictParse 4 caughtUpSession
      demoMem false).1 "boom", ?_, ?_⟩
  · exact (consolidation_persists_only_after_parse listParse 4 behindSession
      demoMem false).2.2.1 { content := some "nope" } rfl
  · have h := (consolidation_persists_only_after_parse dictParse 4 behindSession
      demoMem false).2.2.2 { content := some "x" } (some "E") (some "M") rfl
      (by decide) (by decide) (by decide)
    exact ⟨h.1, by rw [h.2 (by decide)]; rfl⟩

/-- C6: when no new turns exist between the watermark and the retained tail
(`total ≤ watermark + keep_count`), an incremental consolidation run is a
no-op — no model call, no history entry, memory and watermark unchanged —
and running it twice in succession is a no-op both times. -/
theorem consolidation_noop_when_no_new_turns (parse : String → ParsedJson)
    (resp resp2 : Except String ModelResponse) (w : Nat) (s : Session)
    (mem : MemoryState)
    (h : s.messages.length ≤ s.last_consolidated + w / 2) :
    consolidate parse resp w s mem false =
      { session := s, memory := mem, calledModel := false } ∧
    consolidate parse resp2 w (consolidate parse resp w s mem false).session
        (consolidate parse resp w s mem false).memory false =
      { session := s, memory := mem, calledModel := false } := by
  have hspan : consolidationSpan w s false = none := by
    unfold consolidationSpan
    by_cases h1 : s.messages.length ≤ w / 2
    · simp [h1]
    · by_cases h2 : (s.messages.length : Int) - (s.last_consolidated : Int) ≤ 0
      · simp [h1, h2]
      · simp [h1, h2, pyTailSlice_eq_nil s.messages s.last_consolidated (w / 2) h]
  have key : ∀ (resp' : Except String ModelResponse),
      consolidate parse resp' w s mem false =
        { session := s, memory := mem, calledModel := false } := by
    intro resp'
    unfold consolidate
    simp [hspan]
  refine ⟨key resp, ?_⟩
  simp only [key resp]
  exact key resp2

/-- Witness for C6: the fully consolidated three-turn session (watermark 3,
window 4) is untouched by two consecutive consolidation runs, which make no
model call. -/
theorem consolidation_noop_when_no_new_turns_witness :
    consolidate dictParse (.ok { content := some "x" }) 4 caughtUpSession
        demoMem false =
      { session := caughtUpSession, memory := demoMem, calledModel := false } ∧
    consolidate dictParse (.error "boom") 4
        (consolidate dictParse (.ok { content := some "x" }) 4 caughtUpSession
          demoMem false).session
        (consolidate dictParse (.ok { content := some "x" }) 4 caughtUpSession
          demoMem false).memory false =
      { session := caughtUpSession, memory := demoMem, calledModel := false } :=
  consolidation_noop_when_no_new_turns dictParse
    (.ok { content := some "x" }) (.error "boom") 4 caughtUpSession demoMem
    (by decide)

/-- C7: the consolidation watermark never exceeds the stored turn count: it
holds for a fresh session, is preserved by appending a turn, holds after
`clear()` (which empties the messages and zeroes the watermark together), and
is preserved by any consolidation run — in particular a successful
incremental run sets it to `total − keep_count ≤ total`. -/
theorem watermark_never_exceeds_turn_count
    (s : Session) (role content ts : String) (tu : Option (List String))
    (parse : String → ParsedJson) (resp : Except String ModelResponse)
    (w : Nat) (mem : MemoryState) (a : Bool) (k : String) :
    (({ key := k } : Session).last_consolidated ≤
      ({ key := k } : Session).messages.length) ∧
    (s.last_consolidated ≤ s.messages.length →
      (s.add_message role content ts tu).last_consolidated ≤
        (s.add_message role content ts tu).messages.length) ∧
    (s.clear.last_consolidated ≤ s.clear.messages.length) ∧
    (s.last_consolidated ≤ s.messages.length →
      (consolidate parse resp w s mem a).session.last_consolidated ≤
        (consolidate parse resp w s mem a).session.messages.length) := by
  refine ⟨by simp, fun hinv => ?_, by simp [Session.clear], fun hinv => ?_⟩
  · simp [Session.add_message]
    omega
  · unfold consolidate
    cases hsp : consolidationSpan w s a
    · simpa using hinv
    · cases resp with
      | error e => simpa using hinv
      | ok r =>
        by_cases htext : pyStrip (r.content.getD "") = ""
        · simpa [htext] using hinv
        · cases hp : parse (stripFences (pyStrip (r.content.getD ""))) with
          | nonDict => simpa [htext, hp] using hinv
          | dict he mu =>
            cases a with
            | false => simp [htext, hp]
            | true => simp [htext, hp]

/-- Witness for C7: the invariant is preserved at concrete inputs — after
appending to the caught-up session and after a successful consolidation of
the five-turn session. -/
theorem watermark_never_exceeds_turn_count_witness :
    ((caughtUpSession.add_message "user" "m3" "" none).last_consolidated ≤
      (caughtUpSession.add_message "user" "m3" "" none).messages.length) ∧
    ((consolidate dictParse (.ok { content := some "x" }) 4 behindSession
        demoMem false).session.last_consolidated ≤
      (consolidate dictParse (.ok { content := some "x" }) 4 behindSession
        demoMem false).session.messages.length) :=
  ⟨(watermark_never_exceeds_turn_count caughtUpSession "user" "m3" "" none
      dictParse (.ok { content := some "x" }) 4 demoMem false "z").2.1
      (by decide),
   (watermark_never_exceeds_turn_count behindSession "user" "m3" "" none
      dictParse (.ok { content := some "x" }) 4 demoMem false "z").2.2.2
      (by decide)⟩

/-- C5: every subagent run publishes exactly one announcement inbound event
on the bus, with channel `system`, sender `subagent`, and a chat id carrying
the `"channel:chat_id"` origin tag so it routes back to the originating
conversation; when execution raises, the exception is caught — it never
propagates out of the run — and the single announcement carries the error
status and the stringified exception. -/
theorem subagent_announces_exactly_once {σ : Type} (tools : ToolRegistry σ)
    (script : ProviderScript) (budget : Option SpendBudget)
    (workspace task_id task label : String) (origin : String × String)
    (cs : Option String) (rf : Option (List String)) (uc : Option UserContext)
    (ws : σ) :
    ((runSubagent tools script budget workspace task_id task label origin cs rf
        uc ws).published.length = 1) ∧
    (∀ m ∈ (runSubagent tools script budget workspace task_id task label origin
        cs rf uc ws).published,
      m.channel = "system" ∧ m.sender_id = "subagent" ∧
        m.chat_id = origin.1 ++ ":" ++ origin.2) ∧
    (∀ (e : String),
      (run_loop tools script ("subagent:" ++ task_id) 15
          (subagentMessages workspace task cs rf uc) budget ws []).error = some e →
      (runSubagent tools script budget workspace task_id task label origin cs rf
          uc ws).published =
        [announceEvent label task ("Error: " ++ e) origin "error"]) := by
  cases herr : (run_loop tools script ("subagent:" ++ task_id) 15
      (subagentMessages workspace task cs rf uc) budget ws []).error with
  | none =>
    refine ⟨?_, ?_, ?_⟩
    · simp [runSubagent, herr]
    · intro m hm
      simp [runSubagent, herr] at hm
      simp [hm, announceEvent]
    · intro e he
      exact absurd he (by simp)
  | some e0 =>
    refine ⟨?_, ?_, ?_⟩
    · simp [runSubagent, herr]
    · intro m hm
      simp [runSubagent, herr] at hm
      simp [hm, announceEvent]
    · intro e he
      have h2 : e0 = e := by simpa using he
      subst h2
      simp [runSubagent, herr]

/-- Witness for C5: a subagent whose first model call raises still publishes
exactly one announcement, with the error status and the origin tag, to the
system channel. -/
theorem subagent_announces_exactly_once_witness :
    (runSubagent unitTools [.error "boom"] none "/w" "t1" "do" "lbl"
        ("tg", "42") none none none ()).published =
      [announceEvent "lbl" "do" "Error: boom" ("tg", "42") "error"] :=
  (subagent_announces_exactly_once unitTools [.error "boom"] none "/w" "t1"
    "do" "lbl" ("tg", "42") none none none ()).2.2 "boom" rfl

set_option maxRecDepth 2000 in
/-- Counterexample for C9: two invocations of `build_system_prompt` with
identical workspace contents (bootstrap documents, memory text, skills) and
identical user-context argument but different clock readings produce
different system prompts — `_get_identity` embeds the `datetime.now()`
reading in the `## Current Time` section (context.py lines 127–128, 172–173);
the prompts differ at character 1123, inside the current-time line. -/
theorem system_prompt_depends_on_clock :
    build_system_prompt (plainEnv "2026-10-12 10:00 (Sunday)") none none ≠
      build_system_prompt (plainEnv "2026-10-12 10:01 (Sunday)") none none :=
  fun h =>
    absurd (congrArg (fun s => s.data.get? 1123) h) (by decide)

/-- C9 (amended): the system prompt is deterministic given its inputs
including the clock and runtime readings taken at build time: any two
invocations agreeing on the bootstrap documents, the memory text, the skills
(always-active list, inlined bodies, summary), the Honcho mode, the
workspace path, the current-time reading, the runtime description and the
user-context argument produce character-identical prompts — independently of
any other ambient state (such as the media-probing function) and of the
unused `skill_names` argument. -/
theorem system_prompt_deterministic_given_clock
    (e1 e2 : PromptEnv) (sk1 sk2 : Option (List String))
    (uc : Option UserContext)
    (hb : ∀ f ∈ BOOTSTRAP_FILES, e1.bootstrapFile f = e2.bootstrapFile f)
    (hm : e1.memoryContext = e2.memoryContext)
    (hsk : e1.alwaysSkills = e2.alwaysSkills)
    (hac : e1.alwaysSkillsContent = e2.alwaysSkillsContent)
    (hsum : e1.skillsSummary = e2.skillsSummary)
    (hh : e1.honchoEnabled = e2.honchoEnabled)
    (hn : e1.now = e2.now) (hr : e1.runtime = e2.runtime)
    (hw : e1.workspacePath = e2.workspacePath) :
    build_system_prompt e1 sk1 uc = build_system_prompt e2 sk2 uc := by
  have hboot : (BOOTSTRAP_FILES.filterMap fun filename =>
      (e1.bootstrapFile filename).map fun content =>
        "## " ++ filename ++ "\n\n" ++ content) =
    (BOOTSTRAP_FILES.filterMap fun filename =>
      (e2.bootstrapFile filename).map fun content =>
        "## " ++ filename ++ "\n\n" ++ content) :=
    List.filterMap_congr fun f hf => by rw [hb f hf]
  simp only [build_system_prompt, load_bootstrap_files, getIdentity,
    memorySection, skillsSectionText, hboot, hm, hsk, hac, hsum, hh, hn, hr,
    hw]

/-- Witness for C9 (amended) at concrete inputs: two environments that agree
on all prompt inputs but differ in the media-probing function, with
different `skill_names` arguments, yield the identical prompt. -/
theorem system_prompt_deterministic_given_clock_witness :
    build_system_prompt (plainEnv "t0") none none =
      build_system_prompt
        { plainEnv "t0" with imageData := fun s => some s } (some []) none :=
  system_prompt_deterministic_given_clock (plainEnv "t0")
    { plainEnv "t0" with imageData := fun s => some s } none (some []) none
    (fun _ _ => rfl) rfl rfl rfl rfl rfl rfl rfl rfl

/-- Counterexample for C10: a successfully processed message can yield an
empty (though not missing) reply — when the model's final response carries
the empty string as content (not None) and no tool calls, `_process_message`
passes it through to the outbound message: the substitution at loop.py lines
477–478 tests only for None. -/
theorem empty_model_reply_returned_as_is :
    (processMessage (plainEnv "t0") unitTools [.ok { content := some "" }] 10 5
        ({} : SessionManager) demoMsg () none).outcome =
      .ok { channel := "tg", chat_id := "42", content := "" } := by
  decide

/-- C10 (amended): a message whose agent loop completes without raising never
yields a missing reply: when the loop ends with final content None (for
example the iteration ceiling was reached, or the model returned None
content), `_process_message` substitutes the fixed string `"I've completed
processing but have no response to give."` and `_process_system_message`
substitutes `"Background task completed."`; an empty-string model reply,
however, is returned as-is (see the counterexample), so the content is never
None but may be empty. -/
theorem missing_reply_substituted_fixed_strings {σ : Type} (env : PromptEnv)
    (tools : ToolRegistry σ) (script : ProviderScript) (w n : Nat)
    (mgr : SessionManager) (msg : InboundMessage) (ws : σ) :
    (msg.channel ≠ "system" →
      pyLower (pyStrip msg.content) ≠ "/new" →
      pyLower (pyStrip msg.content) ≠ "/clear" →
      pyLower (pyStrip msg.content) ≠ "/help" →
      (runAgentLoop tools script n
          (build_messages env ((mgr.get_or_create msg.session_key).1.get_history w)
            msg.content none msg.media (some msg.channel) (some msg.chat_id) none)
          ws [] []).error = none →
      (runAgentLoop tools script n
          (build_messages env ((mgr.get_or_create msg.session_key).1.get_history w)
            msg.content none msg.media (some msg.channel) (some msg.chat_id) none)
          ws [] []).finalContent = none →
      (processMessage env tools script w n mgr msg ws none).outcome =
        .ok { channel := msg.channel, chat_id := msg.chat_id,
              content := "I\x27ve completed processing but have no response to give.",
              metadata := msg.metadata }) ∧
    (msg.channel = "system" →
      (runAgentLoop tools script n
          (build_messages env
            ((mgr.get_or_create ((splitOriginTag msg.chat_id).1 ++ ":" ++
              (splitOriginTag msg.chat_id).2)).1.get_history w)
            msg.content none [] (some (splitOriginTag msg.chat_id).1)
            (some (splitOriginTag msg.chat_id).2) none) ws [] []).error = none →
      (runAgentLoop tools script n
          (build_messages env
            ((mgr.get_or_create ((splitOriginTag msg.chat_id).1 ++ ":" ++
              (splitOriginTag msg.chat_id).2)).1.get_history w)
            msg.content none [] (some (splitOriginTag msg.chat_id).1)
            (some (splitOriginTag msg.chat_id).2) none) ws [] []).finalContent = none →
      (processMessage env tools script w n mgr msg ws none).outcome =
        .ok { channel := (splitOriginTag msg.chat_id).1,
              chat_id := (splitOriginTag msg.chat_id).2,
              content := "Background task completed." }) := by
  constructor
  · intro hch hnew hclear hhelp herr hfin
    simp [processMessage, hch, hnew, hclear, hhelp, herr, hfin]
  · intro hsys herr hfin
    simp [processMessage, processSystemMessage, hsys, herr, hfin]

/-- Witness for C10 (amended) at concrete inputs: a model response with None
content and no tool calls yields the fixed substitution strings on both the
normal and the system-message paths. -/
theorem missing_reply_substituted_fixed_strings_witness :
    ((processMessage (plainEnv "t0") unitTools [.ok {}] 10 1
        ({} : SessionManager) demoMsg () none).outcome =
      .ok { channel := "tg", chat_id := "42",
            content := "I\x27ve completed processing but have no response to give." }) ∧
    ((processMessage (plainEnv "t0") unitTools [.ok {}] 10 1
        ({} : SessionManager) sysDemoMsg () none).outcome =
      .ok { channel := "tg", chat_id := "42",
            content := "Background task completed." }) :=
  ⟨(missing_reply_substituted_fixed_strings (plainEnv "t0") unitTools [.ok {}]
      10 1 ({} : SessionManager) demoMsg ()).1 (by decide) (by decide)
      (by decide) (by decide) rfl rfl,
   (missing_reply_substituted_fixed_strings (plainEnv "t0") unitTools [.ok {}]
      10 1 ({} : SessionManager) sysDemoMsg ()).2 rfl rfl rfl⟩

/-- C8: a `/new` or `/clear` command returns the `"Session cleared."`
confirmation at once (no model call, no tool execution), leaves the live
session immediately empty with watermark zero and persisted in that state,
and detaches exactly one full-archive consolidation task over a fresh copy
of the pre-clear turns whose watermark is zero; the detached run then
renders every pre-clear turn into its consolidation prompt and never touches
the copied message list, so the live session is never mutated by it. -/
theorem clear_command_detaches_archive {σ : Type} (env : PromptEnv)
    (tools : ToolRegistry σ) (script : ProviderScript) (w n : Nat)
    (mgr : SessionManager) (msg : InboundMessage) (ws : σ)
    (hch : msg.channel ≠ "system")
    (hcmd : pyLower (pyStrip msg.content) = "/new" ∨
      pyLower (pyStrip msg.content) = "/clear") :
    ((processMessage env tools script w n mgr msg ws none).outcome =
      .ok { channel := msg.channel, chat_id := msg.chat_id,
            content := "Session cleared." }) ∧
    (lookupKey (mgr.get_or_create msg.session_key).1.key
        (processMessage env tools script w n mgr msg ws none).sessions.persisted =
      some (mgr.get_or_create msg.session_key).1.clear) ∧
    (((processMessage env tools script w n mgr msg ws none).sessions.get_or_create
        (mgr.get_or_create msg.session_key).1.key).1 =
      (mgr.get_or_create msg.session_key).1.clear) ∧
    ((mgr.get_or_create msg.session_key).1.clear.messages = [] ∧
      (mgr.get_or_create msg.session_key).1.clear.last_consolidated = 0) ∧
    ((processMessage env tools script w n mgr msg ws none).bg =
      [.consolidateArchive
        { key := (mgr.get_or_create msg.session_key).1.key,
          messages := (mgr.get_or_create msg.session_key).1.messages }]) ∧
    ((processMessage env tools script w n mgr msg ws none).ws = ws) ∧
    (∀ (parse : String → ParsedJson) (resp : Except String ModelResponse)
        (mem : MemoryState),
      (consolidate parse resp w
          { key := (mgr.get_or_create msg.session_key).1.key,
            messages := (mgr.get_or_create msg.session_key).1.messages }
          mem true).calledModel = true ∧
      (consolidate parse resp w
          { key := (mgr.get_or_create msg.session_key).1.key,
            messages := (mgr.get_or_create msg.session_key).1.messages }
          mem true).prompt =
        some (consolidationPrompt mem.longTerm
          (String.intercalate "\n"
            ((mgr.get_or_create msg.session_key).1.messages.filterMap
              renderLine))) ∧
      (consolidate parse resp w
          { key := (mgr.get_or_create msg.session_key).1.key,
            messages := (mgr.get_or_create msg.session_key).1.messages }
          mem true).session.messages =
        (mgr.get_or_create msg.session_key).1.messages) := by
  have hP : processMessage env tools script w n mgr msg ws none =
      ⟨.ok { channel := msg.channel, chat_id := msg.chat_id,
             content := "Session cleared." },
        (((mgr.get_or_create msg.session_key).2).save
            (mgr.get_or_create msg.session_key).1.clear).invalidate
          (mgr.get_or_create msg.session_key).1.clear.key,
        [.consolidateArchive
          { key := (mgr.get_or_create msg.session_key).1.key,
            messages := (mgr.get_or_create msg.session_key).1.messages }],
        ws⟩ := by
    rcases hcmd with h | h <;> simp [processMessage, hch, h, Session.clear]
  have harch : ∀ (parse : String → ParsedJson)
      (resp : Except String ModelResponse) (mem : MemoryState) (temp : Session),
      (consolidate parse resp w temp mem true).calledModel = true ∧
      (consolidate parse resp w temp mem true).prompt =
        some (consolidationPrompt mem.longTerm
          (String.intercalate "\n" (temp.messages.filterMap renderLine))) ∧
      (consolidate parse resp w temp mem true).session.messages =
        temp.messages := by
    intro parse resp mem temp
    unfold consolidate consolidationSpan
    rcases resp with e | r
    · simp
    · by_cases htext : pyStrip (r.content.getD "") = ""
      · simp [htext]
      · cases hp : parse (stripFences (pyStrip (r.content.getD ""))) <;>
          simp [htext, hp]
  refine ⟨?_, ?_, ?_, ⟨rfl, rfl⟩, ?_, ?_, fun parse resp mem => harch parse resp mem _⟩
  · simp [hP]
  · simp [hP, SessionManager.save, SessionManager.invalidate, Session.clear,
      lookupKey_setKey_self]
  · simp [hP, SessionManager.get_or_create, SessionManager.save,
      SessionManager.invalidate, Session.clear, lookupKey_removeKey,
      lookupKey_setKey_self]
  · simp [hP]
  · simp [hP]

/-- Witness for C8 at concrete inputs: a ` /NEW ` command on a store holding
the three-turn session replies `"Session cleared."`, persists the cleared
session, and detaches the full-archive task over the pre-clear copy with
watermark zero. -/
theorem clear_command_detaches_archive_witness :
    ((processMessage (plainEnv "t0") unitTools [] 10 5 demoMgr clearMsg ()
        none).outcome =
      .ok { channel := "tg", chat_id := "42", content := "Session cleared." }) ∧
    (lookupKey "tg:42"
        (processMessage (plainEnv "t0") unitTools [] 10 5 demoMgr clearMsg ()
          none).sessions.persisted = some caughtUpSession.clear) ∧
    ((processMessage (plainEnv "t0") unitTools [] 10 5 demoMgr clearMsg ()
        none).bg =
      [.consolidateArchive { key := "tg:42", messages := demoTurns }]) :=
  ⟨(clear_command_detaches_archive (plainEnv "t0") unitTools [] 10 5 demoMgr
      clearMsg () (by decide) (.inl (by decide))).1,
   (clear_command_detaches_archive (plainEnv "t0") unitTools [] 10 5 demoMgr
      clearMsg () (by decide) (.inl (by decide))).2.1,
   (clear_command_detaches_archive (plainEnv "t0") unitTools [] 10 5 demoMgr
      clearMsg () (by decide) (.inl (by decide))).2.2.2.2.1⟩

/-- C3: when the model backend raises during an ordinary exchange, the
exception propagates out of the agent iteration loop and out of
`_process_message` unswallowed; the consumer loop catches it and publishes
exactly one user-visible apology outbound message carrying the exception
text, and the session is left unmodified for that turn — nothing is
persisted and the live session keeps its turns. On success, the user turn
and the assistant turn are appended and persisted together: the stored
session gains exactly those two turns in one save. -/
theorem model_failure_propagates_session_unmodified {σ : Type}
    (env : PromptEnv) (tools : ToolRegistry σ) (script : ProviderScript)
    (w n : Nat) (mgr : SessionManager) (msg : InboundMessage) (ws : σ)
    (hch : msg.channel ≠ "system")
    (hnew : pyLower (pyStrip msg.content) ≠ "/new")
    (hclear : pyLower (pyStrip msg.content) ≠ "/clear")
    (hhelp : pyLower (pyStrip msg.content) ≠ "/help") :
    (∀ (e : String),
      (runAgentLoop tools script n
          (build_messages env ((mgr.get_or_create msg.session_key).1.get_history w)
            msg.content none msg.media (some msg.channel) (some msg.chat_id) none)
          ws [] []).error = some e →
      (processMessage env tools script w n mgr msg ws none).outcome = .error e ∧
      (processMessage env tools script w n mgr msg ws none).sessions.persisted =
        mgr.persisted ∧
      ((processMessage env tools script w n mgr msg ws
          none).sessions.get_or_create msg.session_key).1 =
        (mgr.get_or_create msg.session_key).1 ∧
      (handleInbound env tools script w n mgr msg ws).published =
        [{ channel := msg.channel, chat_id := msg.chat_id,
           content := "Sorry, I encountered an error: " ++ e }]) ∧
    ((runAgentLoop tools script n
          (build_messages env ((mgr.get_or_create msg.session_key).1.get_history w)
            msg.content none msg.media (some msg.channel) (some msg.chat_id) none)
          ws [] []).error = none →
      (processMessage env tools script w n mgr msg ws none).outcome =
        .ok { channel := msg.channel, chat_id := msg.chat_id,
              content :=
                ((runAgentLoop tools script n
                    (build_messages env
                      ((mgr.get_or_create msg.session_key).1.get_history w)
                      msg.content none msg.media (some msg.channel)
                      (some msg.chat_id) none) ws [] []).finalContent.getD
                  "I\x27ve completed processing but have no response to give."),
              metadata := msg.metadata } ∧
      lookupKey (mgr.get_or_create msg.session_key).1.key
          (processMessage env tools script w n mgr msg ws
            none).sessions.persisted =
        some (((mgr.get_or_create msg.session_key).1.add_message "user"
            msg.content "" none).add_message "assistant"
          ((runAgentLoop tools script n
              (build_messages env
                ((mgr.get_or_create msg.session_key).1.get_history w)
                msg.content none msg.media (some msg.channel)
                (some msg.chat_id) none) ws [] []).finalContent.getD
            "I\x27ve completed processing but have no response to give.") ""
          (if (runAgentLoop tools script n
              (build_messages env
                ((mgr.get_or_create msg.session_key).1.get_history w)
                msg.content none msg.media (some msg.channel)
                (some msg.chat_id) none) ws [] []).toolsUsed.isEmpty then none
           else some (runAgentLoop tools script n
              (build_messages env
                ((mgr.get_or_create msg.session_key).1.get_history w)
                msg.content none msg.media (some msg.channel)
                (some msg.chat_id) none) ws [] []).toolsUsed))) := by
  constructor
  · intro e herr
    refine ⟨?_, ?_, ?_, ?_⟩
    · simp [processMessage, hch, hnew, hclear, hhelp, herr]
    · simp [processMessage, hch, hnew, hclear, hhelp, herr,
        (get_or_create_stable mgr msg.session_key).2]
    · simp [processMessage, hch, hnew, hclear, hhelp, herr,
        (get_or_create_stable mgr msg.session_key).1]
    · simp [handleInbound, processMessage, hch, hnew, hclear, hhelp, herr]
  · intro herr
    constructor
    · simp [processMessage, hch, hnew, hclear, hhelp, herr]
    · simp [processMessage, hch, hnew, hclear, hhelp, herr,
        SessionManager.save, Session.add_message, lookupKey_setKey_self]

/-- Witness for C3 at concrete inputs: a raising first model call yields the
propagated error, an untouched store, and the single apology outbound
message; a clean run persists the user and assistant turns together. -/
theorem model_failure_propagates_session_unmodified_witness :
    ((processMessage (plainEnv "t0") unitTools [.error "boom"] 10 5 demoMgr
        demoMsg () none).outcome = .error "boom" ∧
      (processMessage (plainEnv "t0") unitTools [.error "boom"] 10 5 demoMgr
        demoMsg () none).sessions.persisted = demoMgr.persisted ∧
      (handleInbound (plainEnv "t0") unitTools [.error "boom"] 10 5 demoMgr
        demoMsg ()).published =
        [{ channel := "tg", chat_id := "42",
           content := "Sorry, I encountered an error: boom" }]) ∧
    (lookupKey "tg:42"
        (processMessage (plainEnv "t0") unitTools [.ok { content := some "ok!" }]
          10 5 demoMgr demoMsg () none).sessions.persisted =
      some ((caughtUpSession.add_message "user" "hi" "" none).add_message
        "assistant" "ok!" "" none)) := by
  have h1 := (model_failure_propagates_session_unmodified (plainEnv "t0")
    unitTools [.error "boom"] 10 5 demoMgr demoMsg () (by decide) (by decide)
    (by decide) (by decide)).1 "boom" rfl
  have h2 := (model_failure_propagates_session_unmodified (plainEnv "t0")
    unitTools [.ok { content := some "ok!" }] 10 5 demoMgr demoMsg ()
    (by decide) (by decide) (by decide) (by decide)).2 rfl
  exact ⟨⟨h1.1, h1.2.1, h1.2.2.2⟩, h2.2⟩

end Nanobot
